import Mathlib

/-!
Shallow embedding of the `CallersBulkWriter` batched write coordinator from
`firestore/bulkwriter.go`, together with theorems checking the stated
properties of its behaviour.

Modelling conventions:
* The opaque protobuf payloads (`*pb.Write`, `*pb.WriteResult`) are modelled
  as natural numbers; their internal structure is irrelevant to the
  coordinator.  Errors are strings, matching the `errors.New` messages in the
  source.  A per-item status is modelled by its code (`s.GetCode()` in the
  source), an integer, with 0 meaning ok.
* A `bulkWriterJob`'s result/error channel pair is modelled by a job identity
  (`id : Nat`); a send on the pair (`j.result <- r; j.err <- e`) is recorded
  as one `Event.resolve id r e` in an event log.  A transport invocation is
  recorded as `Event.call`.
* The batch transport (`bw.vc.BatchWrite`) is an external collaborator and is
  passed in as a function returning either an error (the Go `err != nil`
  case, in which `resp` is nil) or a response.
* Go runtime panics (nil-pointer dereference, index out of range) are
  modelled by a `crashed` flag on the result: once `crashed` is set no
  further operation runs.  In the source, the `if err != nil` branch of
  `execute` has no `return`, so control falls through to
  `range resp.WriteResults` with `resp` nil and panics; the model performs
  the sends and the `reqs--` of that branch and then sets `crashed`.
* Execution is modelled sequentially: each operation is a function from
  coordinator state to state.  `bw.reqs++` and `bw.reqs--` bracket the
  transport call inside one `execute`, so across a whole sequential
  `execute` the counter nets to its entry value; states with `reqs > 0`
  represent coordinators observed while another batch is in flight.
* `Flush`'s unbounded sleep/poll loop is given explicit fuel; `none` means
  the loop did not terminate within the fuel (or the process crashed).
-/

namespace BulkWriter

/-- Opaque write payload, `*pb.Write` in the source. -/
abbrev Write := Nat

/-- Opaque per-item write result, `*pb.WriteResult` in the source. -/
abbrev WriteResult := Nat

/-- Errors carry their message, as built by `errors.New` in the source. -/
abbrev ErrorMsg := String

/-- A per-item status code, the value of `s.GetCode()`; 0 is ok. -/
abbrev StatusCode := Int

/-- Opaque document reference; the Go `*DocumentRef` is `Option DocumentRef`
here, with `none` for nil. -/
abbrev DocumentRef := Nat

/-- Opaque caller-supplied document contents (`datum interface{}`). -/
abbrev Datum := Nat

/-- Constant `MAX_BATCH_SIZE = 20` from the source. -/
def MAX_BATCH_SIZE : Nat := 20

/-- Constant `MAX_RETRY_ATTEMPTS = 10` from the source. -/
def MAX_RETRY_ATTEMPTS : Nat := 10

/-- Constant `DEFAULT_STARTING_MAXIMUM_OPS_PER_SECOND = 500` from the source. -/
def DEFAULT_STARTING_MAXIMUM_OPS_PER_SECOND : Nat := 500

/-- One unit of work, `bulkWriterJob` in the source: the write payload, the
retry counter, and `id` standing for the identity of its result/error
channel pair. -/
structure bulkWriterJob where
  id : Nat
  write : Write
  attempts : Nat
deriving DecidableEq

/-- Coordinator state, `CallersBulkWriter` in the source (the context and the
client handle are dropped; the transport is passed as a function). -/
structure CallersBulkWriter where
  database : String
  reqs : Nat
  isOpen : Bool
  backlogQueue : List bulkWriterJob
deriving DecidableEq

/-- The `pb.BatchWriteRequest` composed by `execute` (the constant empty
`Labels` map is omitted). -/
structure BatchWriteRequest where
  database : String
  writes : List Write
deriving DecidableEq

/-- The `pb.BatchWriteResponse`: positionally aligned result and status
lists. -/
structure BatchWriteResponse where
  writeResults : List WriteResult
  status : List StatusCode
deriving DecidableEq

/-- The batch transport collaborator, `bw.vc.BatchWrite`: `Except.error`
models the Go `err != nil` return, in which case the response is nil. -/
abbrev Transport := BatchWriteRequest → Except ErrorMsg BatchWriteResponse

/-- Observable actions of one operation: a transport invocation, or a send
on a job's result/error channel pair. -/
inductive Event where
  | call (req : BatchWriteRequest)
  | resolve (id : Nat) (result : Option WriteResult) (err : Option ErrorMsg)
deriving DecidableEq

/-- The transport requests among a list of events, in order. -/
def callsOf (evs : List Event) : List BatchWriteRequest :=
  evs.filterMap fun e =>
    match e with
    | .call req => some req
    | .resolve _ _ _ => none

/-- The channel resolutions among a list of events, in order: job id, value
sent on the result channel, value sent on the error channel. -/
def resolvesOf (evs : List Event) : List (Nat × Option WriteResult × Option ErrorMsg) :=
  evs.filterMap fun e =>
    match e with
    | .call _ => none
    | .resolve i r er => some (i, r, er)

/-- Result of running `execute` (or its response loop): the new coordinator
state, the events emitted, and whether the goroutine panicked. -/
structure ExecOut where
  state : CallersBulkWriter
  events : List Event
  crashed : Bool
deriving DecidableEq

/-- `makeBatch` from the source: pop the whole backlog if it is shorter than
`MAX_BATCH_SIZE`, otherwise pop exactly the first `MAX_BATCH_SIZE` jobs. -/
def makeBatch (s : CallersBulkWriter) : List bulkWriterJob × CallersBulkWriter :=
  let qs := s.backlogQueue.length
  if qs < MAX_BATCH_SIZE then
    (s.backlogQueue.take qs, { s with backlogQueue := [] })
  else
    (s.backlogQueue.take MAX_BATCH_SIZE,
     { s with backlogQueue := s.backlogQueue.drop MAX_BATCH_SIZE })

/-- The response loop of `execute` (`for i, res := range resp.WriteResults`),
recursing over the remaining write results with `i` the current index.
`resp.Status[i]` and `b[i]` out of range are Go index-out-of-range panics,
modelled as `crashed`.  A non-zero code re-appends `b[i]` to the backlog
unchanged and emits nothing (`continue`); a zero code sends the result and a
nil error on `b[i]`'s channel pair. -/
def distribute (statuses : List StatusCode) (b : List bulkWriterJob) :
    List WriteResult → Nat → CallersBulkWriter → ExecOut
  | [], _, s => ⟨s, [], false⟩
  | res :: rest, i, s =>
    match statuses[i]? with
    | none => ⟨s, [], true⟩
    | some c =>
      match b[i]? with
      | none => ⟨s, [], true⟩
      | some j =>
        if c ≠ 0 then
          distribute statuses b rest (i + 1)
            { s with backlogQueue := s.backlogQueue ++ [j] }
        else
          let r := distribute statuses b rest (i + 1) s
          ⟨r.state, Event.resolve j.id (some res) none :: r.events, r.crashed⟩

/-- `execute` from the source.  Guardrail on `reqs`; pop a batch; collect the
writes of jobs with `attempts < MAX_RETRY_ATTEMPTS`; stop if none; invoke the
transport.  On transport error every job of the popped batch receives a nil
result and the error on its channels, `reqs` is decremented, and then — the
branch having no return — the code dereferences the nil response and
panics (`crashed`).  On success the response loop distributes the pairs. -/
def execute (transport : Transport) (s : CallersBulkWriter) (_isFlushing : Bool) :
    ExecOut :=
  if s.reqs ≥ DEFAULT_STARTING_MAXIMUM_OPS_PER_SECOND then ⟨s, [], false⟩
  else
    let p := makeBatch s
    let b := p.1
    let s1 := p.2
    let ws := (b.filter fun j => j.attempts < MAX_RETRY_ATTEMPTS).map fun j => j.write
    if ws.length = 0 then ⟨s1, [], false⟩
    else
      let req : BatchWriteRequest := ⟨s1.database, ws⟩
      match transport req with
      | .error e =>
        ⟨s1, Event.call req :: (b.map fun j => Event.resolve j.id none (some e)), true⟩
      | .ok resp =>
        let r := distribute resp.status b resp.writeResults 0 s1
        ⟨r.state, Event.call req :: r.events, r.crashed⟩

/-- The `for len(b.backlogQueue) > 0` poll loop of `Flush`, with fuel for the
unbounded iteration.  `none`: the loop did not exit within the fuel, or an
`execute` panicked. -/
def flushLoop (transport : Transport) : Nat → CallersBulkWriter →
    Option (CallersBulkWriter × List Event)
  | 0, s => if s.backlogQueue.length = 0 then some (s, []) else none
  | fuel + 1, s =>
    if s.backlogQueue.length = 0 then some (s, [])
    else
      let r := execute transport s true
      if r.crashed then none
      else
        match flushLoop transport fuel r.state with
        | none => none
        | some p => some (p.1, r.events ++ p.2)

/-- `Flush` from the source: one unconditional `execute(true)`, then the poll
loop while the backlog is non-empty. -/
def flush (transport : Transport) (fuel : Nat) (s : CallersBulkWriter) :
    Option (CallersBulkWriter × List Event) :=
  let r := execute transport s true
  if r.crashed then none
  else
    match flushLoop transport fuel r.state with
    | none => none
    | some p => some (p.1, r.events ++ p.2)

/-- `Close` from the source: set `isOpen` to false, then the same drain as
`Flush`. -/
def close (transport : Transport) (fuel : Nat) (s : CallersBulkWriter) :
    Option (CallersBulkWriter × List Event) :=
  flush transport fuel { s with isOpen := false }

/-- The message of the error `Create` returns once the coordinator is
closed. -/
def closedErr : ErrorMsg := "firestore: BulkWriter has been closed"

/-- The message of the error `Create` returns for a nil document
reference. -/
def nilDocErr : ErrorMsg := "firestore: nil document contents"

/-- The message of the error `Create` returns when the write encoder
fails. -/
def cannotCreateErr (datum : Datum) : ErrorMsg :=
  "firestore: cannot create document with " ++ toString datum

/-- What a `Create` call returns to its caller: an immediate error before
anything is enqueued, a successfully enqueued job (after which the caller
blocks on the job's channels and a dispatch goroutine has been spawned), or
a panic (`w[0]` on an empty encoder result). -/
inductive CreateOutcome where
  | earlyErr (e : ErrorMsg)
  | enqueued (id : Nat)
  | crashed
deriving DecidableEq

/-- Result of a `Create` call: its outcome and the coordinator state it
leaves behind. -/
structure CreateOut where
  outcome : CreateOutcome
  state : CallersBulkWriter
deriving DecidableEq

/-- `Create` from the source.  `enc` is the write-operation encoder
collaborator (`doc.newCreateWrites`, outside the given sources; the spec
describes `encode(operation-kind, document-identity, data) -> write-payload,
error`).  `newId` stands for the identity of the freshly made channel pair.
An `earlyErr` outcome returns before the backlog is touched and before any
dispatch goroutine is spawned; `enqueued` appends the fresh job (attempt
count 0) at the tail and spawns `go bw.execute(false)`. -/
def create (enc : DocumentRef → Datum → Except ErrorMsg (List Write))
    (s : CallersBulkWriter) (doc : Option DocumentRef) (datum : Datum)
    (newId : Nat) : CreateOut :=
  if !s.isOpen then ⟨.earlyErr closedErr, s⟩
  else
    match doc with
    | none => ⟨.earlyErr nilDocErr, s⟩
    | some d =>
      match enc d datum with
      | .error _ => ⟨.earlyErr (cannotCreateErr datum), s⟩
      | .ok w =>
        match w.head? with
        | none => ⟨.crashed, s⟩
        | some w0 =>
          ⟨.enqueued newId,
           { s with backlogQueue := s.backlogQueue ++ [⟨newId, w0, 0⟩] }⟩

/-- The writes `execute` sends outbound from a given state: the popped batch
filtered to jobs whose attempt count is below `MAX_RETRY_ATTEMPTS`. -/
def outboundWrites (s : CallersBulkWriter) : List Write :=
  ((s.backlogQueue.take MAX_BATCH_SIZE).filter
      fun j => j.attempts < MAX_RETRY_ATTEMPTS).map
    fun j => j.write

/-- A transport that answers every request with an ok status and a result
`g w` for each write `w`, positionally aligned — the no-failure collaborator
of the steady-state scenario. -/
def okTransport (g : Write → WriteResult) : Transport :=
  fun req => .ok ⟨req.writes.map g, req.writes.map fun _ => 0⟩

/-- A transport whose call itself always fails. -/
def errTransport : Transport := fun _ => .error "rpc error"

/-- A transport that answers every request with a non-ok status (code 1) for
every item. -/
def nonOkTransport : Transport :=
  fun req => .ok ⟨req.writes.map fun _ => 0, req.writes.map fun _ => 1⟩

/-- A coordinator holding 21 fresh jobs with ids 0 through 20. -/
def stateTwentyOne : CallersBulkWriter :=
  ⟨"db", 0, true, (List.range 21).map fun n => ⟨n, n, 0⟩⟩

/-- A coordinator holding 25 fresh jobs with ids 0 through 24. -/
def stateTwentyFive : CallersBulkWriter :=
  ⟨"db", 0, true, (List.range 25).map fun n => ⟨n, n, 0⟩⟩

/-- Both branches of `makeBatch` pop `take MAX_BATCH_SIZE` and keep
`drop MAX_BATCH_SIZE`: when the backlog is shorter than the bound, taking
its full length and taking the bound coincide. -/
theorem makeBatch_eq (s : CallersBulkWriter) :
    makeBatch s = (s.backlogQueue.take MAX_BATCH_SIZE,
      { s with backlogQueue := s.backlogQueue.drop MAX_BATCH_SIZE }) := by
  simp only [makeBatch]
  split
  next h =>
    have hle : s.backlogQueue.length ≤ MAX_BATCH_SIZE := le_of_lt h
    rw [List.take_length, List.take_of_length_le hle, List.drop_eq_nil_of_le hle]
  next h => rfl

/-- C1: with 21 accepted fresh writes in the backlog and a transport whose
call fails, `execute` pops the first 20, resolves them with the error, and
then panics on the nil response (the error branch has no return): the 21st
accepted write (id 20) is still in the backlog at the moment the process
dies, its channel pair never written — zero resolutions, not exactly one. -/
theorem execute_crash_leaves_accepted_job_unresolved :
    (execute errTransport stateTwentyOne false).crashed = true ∧
    (execute errTransport stateTwentyOne false).state.backlogQueue = [⟨20, 20, 0⟩] ∧
    (resolvesOf (execute errTransport stateTwentyOne false).events).map (fun t => t.1)
      = List.range 20 := by decide

/-- C2: a job whose only response so far is a non-ok status is re-appended
to the backlog with its attempt count unchanged (still 0, not 1): the source
never increments `attempts`, so the retry bound is never approached and no
"exceeded retry attempts" resolution can ever happen. -/
theorem execute_nonOk_requeues_without_incrementing_attempts :
    execute nonOkTransport ⟨"db", 0, true, [⟨3, 9, 0⟩]⟩ false =
      ⟨⟨"db", 0, true, [⟨3, 9, 0⟩]⟩, [Event.call ⟨"db", [9]⟩], false⟩ := by decide

/-- C4: a job whose attempt count has reached `MAX_RETRY_ATTEMPTS` is popped
from the backlog, excluded from the outbound request, and then simply
forgotten: no transport call, no event at all — its channel pair is never
resolved with any "retries exhausted" error. -/
theorem execute_drops_exhausted_job_silently :
    execute (okTransport fun w => w) ⟨"db", 0, true, [⟨7, 5, 10⟩]⟩ false =
      ⟨⟨"db", 0, true, []⟩, [], false⟩ := by decide

/-- C6: when the transport call itself errors, `execute` goes on to range
over the per-item results of the nil response — a nil-pointer dereference
that kills the process (the `if err != nil` branch has no return). -/
theorem execute_transport_error_dereferences_nil_response :
    (execute errTransport ⟨"db", 0, true, [⟨1, 4, 0⟩]⟩ false).crashed = true := by decide

/-- C3 counterexample: a popped batch of an exhausted job (id 1, write 11)
followed by a fresh one (id 2, write 22).  Only write 22 goes outbound, and
the transport answers with an ok pair for it (result 122), yet `execute`
delivers that pair to batch position 0 — job id 1, whose write was never
sent — while job id 2, owner of outbound element 0, gets nothing. -/
theorem response_delivered_to_wrong_job :
    outboundWrites ⟨"db", 0, true, [⟨1, 11, 10⟩, ⟨2, 22, 0⟩]⟩ = [22] ∧
    (execute (okTransport fun w => w + 100)
        ⟨"db", 0, true, [⟨1, 11, 10⟩, ⟨2, 22, 0⟩]⟩ false).events
      = [Event.call ⟨"db", [22]⟩, Event.resolve 1 (some 122) none] := by decide

/-- C7 counterexample: `Flush` on a coordinator whose backlog is empty while
one batch is still in flight (`reqs = 1`, the state seen between `reqs++`
and `reqs--` of a concurrent `execute`) returns immediately: the loop
condition tests only the backlog length, so at the moment `Flush` returns
the in-flight counter is 1, not 0. -/
theorem flush_returns_while_batch_in_flight :
    flush (okTransport fun w => w) 1 ⟨"db", 1, true, []⟩ =
      some (⟨"db", 1, true, []⟩, []) ∧
    (⟨"db", 1, true, []⟩ : CallersBulkWriter).reqs ≠ 0 := by decide

/-- C10: a `Create` call with a nil document reference on an open
coordinator returns a nil result and the "nil document contents" error
immediately; the coordinator state is untouched — no job appended, no
dispatch spawned. -/
theorem create_nil_doc_rejected (enc : DocumentRef → Datum → Except ErrorMsg (List Write))
    (s : CallersBulkWriter) (datum : Datum) (newId : Nat)
    (h : s.isOpen = true) :
    create enc s none datum newId = ⟨.earlyErr nilDocErr, s⟩ := by
  simp [create, h]

/-- Witness for C10 at a concrete open coordinator. -/
theorem create_nil_doc_rejected_witness :
    (⟨"db", 0, true, []⟩ : CallersBulkWriter).isOpen = true ∧
    create (fun _ _ => .ok [0]) ⟨"db", 0, true, []⟩ none 0 0 =
      ⟨.earlyErr nilDocErr, ⟨"db", 0, true, []⟩⟩ :=
  ⟨rfl, create_nil_doc_rejected _ _ _ _ rfl⟩

/-- C5: when the batch transport call itself errors, every job of the popped
batch — not only those whose writes went outbound — receives exactly one
resolution carrying a nil result and that same error, and the coordinator's
backlog is left at the un-popped remainder: none of the batch jobs is
re-appended for retry.  (The goroutine then dies on the nil response; see
the C6 theorem.) -/
theorem execute_transport_error_resolves_whole_batch
    (transport : Transport) (s : CallersBulkWriter) (e : ErrorMsg)
    (hreqs : s.reqs < DEFAULT_STARTING_MAXIMUM_OPS_PER_SECOND)
    (hws : outboundWrites s ≠ [])
    (herr : transport ⟨s.database, outboundWrites s⟩ = .error e) :
    execute transport s false =
      ⟨{ s with backlogQueue := s.backlogQueue.drop MAX_BATCH_SIZE },
       Event.call ⟨s.database, outboundWrites s⟩ ::
         ((s.backlogQueue.take MAX_BATCH_SIZE).map fun j =>
           Event.resolve j.id none (some e)),
       true⟩ := by
  have hge : ¬ s.reqs ≥ DEFAULT_STARTING_MAXIMUM_OPS_PER_SECOND := not_le.mpr hreqs
  have hlen : ¬ (outboundWrites s).length = 0 := by
    simpa [List.length_eq_zero] using hws
  simp only [outboundWrites] at herr hlen ⊢
  simp only [execute, makeBatch_eq, if_neg hge, if_neg hlen, herr]

/-- Witness for C5: one fresh job, a transport that always fails. -/
theorem execute_transport_error_resolves_whole_batch_witness :
    (⟨"db", 0, true, [⟨1, 2, 0⟩]⟩ : CallersBulkWriter).reqs
        < DEFAULT_STARTING_MAXIMUM_OPS_PER_SECOND ∧
    outboundWrites ⟨"db", 0, true, [⟨1, 2, 0⟩]⟩ ≠ [] ∧
    errTransport ⟨"db", outboundWrites ⟨"db", 0, true, [⟨1, 2, 0⟩]⟩⟩ =
      .error "rpc error" ∧
    execute errTransport ⟨"db", 0, true, [⟨1, 2, 0⟩]⟩ false =
      ⟨⟨"db", 0, true, []⟩,
       [Event.call ⟨"db", [2]⟩, Event.resolve 1 none (some "rpc error")], true⟩ :=
  ⟨by decide, by decide, rfl, by
    have h := execute_transport_error_resolves_whole_batch errTransport
      ⟨"db", 0, true, [⟨1, 2, 0⟩]⟩ "rpc error" (by decide) (by decide) rfl
    simpa using h⟩

/-- The response loop touches only the backlog: the request counter, the
open flag and the database name come through unchanged. -/
theorem distribute_preserves (statuses : List StatusCode) (b : List bulkWriterJob) :
    ∀ (results : List WriteResult) (i : Nat) (s : CallersBulkWriter),
      (distribute statuses b results i s).state.reqs = s.reqs ∧
      (distribute statuses b results i s).state.isOpen = s.isOpen ∧
      (distribute statuses b results i s).state.database = s.database := by
  intro results
  induction results with
  | nil => intro i s; exact ⟨rfl, rfl, rfl⟩
  | cons res rest ih =>
    intro i s
    simp only [distribute]
    cases hst : statuses[i]? with
    | none => exact ⟨rfl, rfl, rfl⟩
    | some c =>
      cases hb : b[i]? with
      | none => exact ⟨rfl, rfl, rfl⟩
      | some j =>
        by_cases hc : c ≠ 0
        · simp only [if_pos hc]
          exact ih (i + 1) { s with backlogQueue := s.backlogQueue ++ [j] }
        · simp only [if_neg hc]
          exact ih (i + 1) s

/-- A whole sequential `execute` nets the request counter back to its entry
value and never touches the open flag or the database name. -/
theorem execute_preserves (transport : Transport) (s : CallersBulkWriter)
    (fl : Bool) :
    (execute transport s fl).state.reqs = s.reqs ∧
    (execute transport s fl).state.isOpen = s.isOpen ∧
    (execute transport s fl).state.database = s.database := by
  simp only [execute, makeBatch_eq]
  split
  · exact ⟨rfl, rfl, rfl⟩
  · split
    · exact ⟨rfl, rfl, rfl⟩
    · split
      · exact ⟨rfl, rfl, rfl⟩
      · exact distribute_preserves _ _ _ _ _

/-- The `Flush` poll loop exits only through its emptiness test, and each
iteration preserves the counter and the flag: any state it returns has an
empty backlog, the entry value of `reqs`, and the entry open flag. -/
theorem flushLoop_inv (transport : Transport) :
    ∀ (fuel : Nat) (s s2 : CallersBulkWriter) (evs : List Event),
      flushLoop transport fuel s = some (s2, evs) →
      s2.backlogQueue = [] ∧ s2.reqs = s.reqs ∧ s2.isOpen = s.isOpen := by
  intro fuel
  induction fuel with
  | zero =>
    intro s s2 evs h
    simp only [flushLoop] at h
    split at h
    next hemp =>
      simp only [Option.some.injEq, Prod.mk.injEq] at h
      obtain ⟨rfl, rfl⟩ := h
      exact ⟨List.length_eq_zero.mp hemp, rfl, rfl⟩
    next => exact absurd h (by simp)
  | succ fuel ih =>
    intro s s2 evs h
    simp only [flushLoop] at h
    split at h
    next hemp =>
      simp only [Option.some.injEq, Prod.mk.injEq] at h
      obtain ⟨rfl, rfl⟩ := h
      exact ⟨List.length_eq_zero.mp hemp, rfl, rfl⟩
    next =>
      split at h
      next => exact absurd h (by simp)
      next =>
        split at h
        next => exact absurd h (by simp)
        next p heq =>
          obtain ⟨pa, pb⟩ := p
          simp only [Option.some.injEq, Prod.mk.injEq] at h
          obtain ⟨rfl, -⟩ := h
          obtain ⟨hpre1, hpre2, -⟩ := execute_preserves transport s true
          obtain ⟨g1, g2, g3⟩ := ih (execute transport s true).state pa pb heq
          exact ⟨g1, g2.trans hpre1, g3.trans hpre2⟩

/-- When `flush` returns, the final state has an empty backlog and carries
the entry request counter and open flag (helper shared by several
results). -/
theorem flush_inv (transport : Transport)
    (fuel : Nat) (s s2 : CallersBulkWriter) (evs : List Event)
    (h : flush transport fuel s = some (s2, evs)) :
    s2.backlogQueue = [] ∧ s2.reqs = s.reqs ∧ s2.isOpen = s.isOpen := by
  simp only [flush] at h
  split at h
  next => exact absurd h (by simp)
  next =>
    split at h
    next => exact absurd h (by simp)
    next p heq =>
      obtain ⟨pa, pb⟩ := p
      simp only [Option.some.injEq, Prod.mk.injEq] at h
      obtain ⟨rfl, -⟩ := h
      obtain ⟨hpre1, hpre2, -⟩ := execute_preserves transport s true
      obtain ⟨g1, g2, g3⟩ := flushLoop_inv transport fuel
        (execute transport s true).state pa pb heq
      exact ⟨g1, g2.trans hpre1, g3.trans hpre2⟩

/-- C7 (amended): whenever `Flush` returns, the backlog is empty and the
in-flight counter `reqs` equals its value at entry: `Flush` drains the
backlog but never consults nor waits on the in-flight counter, so `reqs` is
0 at return only if it was 0 at entry.  `Close` performs exactly this drain
after unsetting the open flag. -/
theorem flush_drains_backlog_but_not_inflight (transport : Transport)
    (fuel : Nat) (s s2 : CallersBulkWriter) (evs : List Event)
    (h : flush transport fuel s = some (s2, evs)) :
    s2.backlogQueue = [] ∧ s2.reqs = s.reqs := by
  obtain ⟨h1, h2, -⟩ := flush_inv transport fuel s s2 evs h
  exact ⟨h1, h2⟩

/-- Witness for the amended C7: flushing one fresh job over an always-ok
transport returns with an empty backlog and the entry counter. -/
theorem flush_drains_backlog_but_not_inflight_witness :
    flush (okTransport fun w => w) 1 ⟨"db", 0, true, [⟨1, 2, 0⟩]⟩ =
      some (⟨"db", 0, true, []⟩,
        [Event.call ⟨"db", [2]⟩, Event.resolve 1 (some 2) none]) ∧
    (⟨"db", 0, true, []⟩ : CallersBulkWriter).backlogQueue = [] ∧
    (⟨"db", 0, true, []⟩ : CallersBulkWriter).reqs =
      (⟨"db", 0, true, [⟨1, 2, 0⟩]⟩ : CallersBulkWriter).reqs :=
  ⟨by decide,
   (flush_drains_backlog_but_not_inflight (okTransport fun w => w) 1
      ⟨"db", 0, true, [⟨1, 2, 0⟩]⟩ ⟨"db", 0, true, []⟩
      [Event.call ⟨"db", [2]⟩, Event.resolve 1 (some 2) none] (by decide)).1,
   (flush_drains_backlog_but_not_inflight (okTransport fun w => w) 1
      ⟨"db", 0, true, [⟨1, 2, 0⟩]⟩ ⟨"db", 0, true, []⟩
      [Event.call ⟨"db", [2]⟩, Event.resolve 1 (some 2) none] (by decide)).2⟩

/-- C9: after a completed `Close` — which sets the open flag to false and
then drains like `Flush`, no later operation ever resetting the flag — any
`Create` call returns immediately with a nil result and the "BulkWriter has
been closed" error, leaving the coordinator state (in particular the
backlog) untouched and spawning no dispatch. -/
theorem create_after_close_rejected (transport : Transport) (fuel : Nat)
    (s s2 : CallersBulkWriter) (evs : List Event)
    (enc : DocumentRef → Datum → Except ErrorMsg (List Write))
    (doc : Option DocumentRef) (datum : Datum) (newId : Nat)
    (h : close transport fuel s = some (s2, evs)) :
    create enc s2 doc datum newId = ⟨.earlyErr closedErr, s2⟩ := by
  have hopen : s2.isOpen = false := by
    have := (flush_inv transport fuel { s with isOpen := false } s2 evs h).2.2
    simpa using this
  simp [create, hopen]

/-- Witness for C9: close an empty coordinator, then attempt a create. -/
theorem create_after_close_rejected_witness :
    close (okTransport fun w => w) 1 ⟨"db", 0, true, []⟩ =
      some (⟨"db", 0, false, []⟩, []) ∧
    create (fun _ _ => .ok [0]) ⟨"db", 0, false, []⟩ (some 3) 4 5 =
      ⟨.earlyErr closedErr, ⟨"db", 0, false, []⟩⟩ :=
  ⟨by decide,
   create_after_close_rejected (okTransport fun w => w) 1 ⟨"db", 0, true, []⟩
     ⟨"db", 0, false, []⟩ [] (fun _ _ => .ok [0]) (some 3) 4 5 (by decide)⟩

/-- If position `i + k` of the statuses is ok and `b` has job `j` there, the
response loop emits the resolution of `j` with the `k`-th remaining write
result (whatever happens at the other positions). -/
theorem distribute_resolve_mem (statuses : List StatusCode) (b : List bulkWriterJob) :
    ∀ (results : List WriteResult) (i k : Nat) (s : CallersBulkWriter)
      (res : WriteResult) (j : bulkWriterJob),
      results[k]? = some res → statuses[i + k]? = some 0 → b[i + k]? = some j →
      Event.resolve j.id (some res) none ∈ (distribute statuses b results i s).events := by
  intro results
  induction results with
  | nil =>
    intro i k s res j hres _ _
    simp at hres
  | cons res0 rest ih =>
    intro i k s res j hres hst hb
    cases k with
    | zero =>
      simp only [List.getElem?_cons_zero, Option.some.injEq] at hres
      subst hres
      simp only [Nat.add_zero] at hst hb
      simp only [distribute, hst, hb]
      simp
    | succ k =>
      have hltst : i + (k + 1) < statuses.length := (List.getElem?_eq_some.mp hst).1
      have hltb : i + (k + 1) < b.length := (List.getElem?_eq_some.mp hb).1
      have hist : i < statuses.length := by omega
      have hib : i < b.length := by omega
      have hc : statuses[i]? = some statuses[i] := List.getElem?_eq_getElem hist
      have hjb : b[i]? = some b[i] := List.getElem?_eq_getElem hib
      have hres2 : rest[k]? = some res := by simpa using hres
      have hst2 : statuses[(i + 1) + k]? = some 0 := by
        have hadd : (i + 1) + k = i + (k + 1) := by omega
        rw [hadd]; exact hst
      have hb2 : b[(i + 1) + k]? = some j := by
        have hadd : (i + 1) + k = i + (k + 1) := by omega
        rw [hadd]; exact hb
      simp only [distribute, hc, hjb]
      by_cases h0 : statuses[i] ≠ 0
      · simp only [if_pos h0]
        exact ih (i + 1) k _ res j hres2 hst2 hb2
      · simp only [if_neg h0]
        exact List.mem_cons_of_mem _ (ih (i + 1) k s res j hres2 hst2 hb2)

/-- C3 (amended): `execute` aligns the response positionally against the
popped batch, so whenever no popped job has exhausted its attempts — which
holds in every state the public operations can reach, attempt counts staying
0 — the outbound request is exactly the batch's writes in order, and an ok
pair at position `k` resolves precisely the job whose write was the `k`-th
element of the outbound request, with that pair's result.  (When an
exhausted job is present the code still indexes the unfiltered batch and the
correspondence to the outbound request breaks; see the counterexample.) -/
theorem execute_ok_pair_resolves_outbound_job
    (transport : Transport) (s : CallersBulkWriter) (resp : BatchWriteResponse)
    (k : Nat) (res : WriteResult) (j : bulkWriterJob)
    (hatt : ∀ jb ∈ s.backlogQueue, jb.attempts < MAX_RETRY_ATTEMPTS)
    (hreqs : s.reqs < DEFAULT_STARTING_MAXIMUM_OPS_PER_SECOND)
    (htr : transport ⟨s.database, outboundWrites s⟩ = .ok resp)
    (hres : resp.writeResults[k]? = some res)
    (hst : resp.status[k]? = some 0)
    (hj : (s.backlogQueue.take MAX_BATCH_SIZE)[k]? = some j) :
    Event.resolve j.id (some res) none ∈ (execute transport s false).events ∧
    (outboundWrites s)[k]? = some j.write := by
  have hge : ¬ s.reqs ≥ DEFAULT_STARTING_MAXIMUM_OPS_PER_SECOND := not_le.mpr hreqs
  have hfilt : (s.backlogQueue.take MAX_BATCH_SIZE).filter
      (fun jb => jb.attempts < MAX_RETRY_ATTEMPTS) = s.backlogQueue.take MAX_BATCH_SIZE :=
    List.filter_eq_self.mpr fun a ha => by
      simpa using hatt a (List.take_subset _ _ ha)
  have hout : outboundWrites s =
      (s.backlogQueue.take MAX_BATCH_SIZE).map fun jb => jb.write := by
    rw [outboundWrites, hfilt]
  have hwk : (outboundWrites s)[k]? = some j.write := by
    rw [hout, List.getElem?_map, hj]; rfl
  refine ⟨?_, hwk⟩
  have hlen : ¬ (outboundWrites s).length = 0 := by
    have : k < (outboundWrites s).length := (List.getElem?_eq_some.mp hwk).1
    omega
  rw [outboundWrites] at hlen
  have htr2 := htr
  rw [hout] at htr2
  simp only [execute, makeBatch_eq, if_neg hge]
  rw [hfilt] at hlen ⊢
  simp only [if_neg hlen, htr2]
  refine List.mem_cons_of_mem _ ?_
  have hst0 : resp.status[0 + k]? = some 0 := by simpa using hst
  have hj0 : (s.backlogQueue.take MAX_BATCH_SIZE)[0 + k]? = some j := by simpa using hj
  exact distribute_resolve_mem resp.status _ resp.writeResults 0 k _ res j hres hst0 hj0

/-- Witness for the amended C3: one fresh job, ok transport, position 0. -/
theorem execute_ok_pair_resolves_outbound_job_witness :
    (∀ jb ∈ (⟨"db", 0, true, [⟨5, 7, 0⟩]⟩ : CallersBulkWriter).backlogQueue,
        jb.attempts < MAX_RETRY_ATTEMPTS) ∧
    (Event.resolve 5 (some 8) none ∈
        (execute (okTransport fun w => w + 1) ⟨"db", 0, true, [⟨5, 7, 0⟩]⟩ false).events ∧
      (outboundWrites ⟨"db", 0, true, [⟨5, 7, 0⟩]⟩)[0]? = some 7) :=
  ⟨by decide,
   execute_ok_pair_resolves_outbound_job (okTransport fun w => w + 1)
     ⟨"db", 0, true, [⟨5, 7, 0⟩]⟩ ⟨[8], [0]⟩ 0 8 ⟨5, 7, 0⟩
     (by decide) (by decide) rfl (by decide) (by decide) (by decide)⟩

/-- Splitting an event log splits its transport calls. -/
theorem callsOf_append (a b : List Event) :
    callsOf (a ++ b) = callsOf a ++ callsOf b := by
  simp [callsOf]

/-- A call event heads the call list. -/
theorem callsOf_cons_call (req : BatchWriteRequest) (evs : List Event) :
    callsOf (Event.call req :: evs) = req :: callsOf evs := by
  simp [callsOf]

/-- Resolution events contribute no transport calls. -/
theorem callsOf_resolves (g : Write → WriteResult) (l : List bulkWriterJob) :
    callsOf (l.map fun j => Event.resolve j.id (some (g j.write)) none) = [] := by
  induction l with
  | nil => rfl
  | cons j rest ih =>
    simp only [List.map_cons, callsOf, List.filterMap_cons] at ih ⊢
    exact ih

/-- Splitting an event log splits its resolutions. -/
theorem resolvesOf_append (a b : List Event) :
    resolvesOf (a ++ b) = resolvesOf a ++ resolvesOf b := by
  simp [resolvesOf]

/-- A call event contributes no resolution. -/
theorem resolvesOf_cons_call (req : BatchWriteRequest) (evs : List Event) :
    resolvesOf (Event.call req :: evs) = resolvesOf evs := by
  simp [resolvesOf]

/-- The resolutions of a block of ok-resolution events, in order. -/
theorem resolvesOf_resolves (g : Write → WriteResult) (l : List bulkWriterJob) :
    resolvesOf (l.map fun j => Event.resolve j.id (some (g j.write)) none)
      = l.map fun j => (j.id, some (g j.write), (none : Option ErrorMsg)) := by
  induction l with
  | nil => rfl
  | cons j rest ih =>
    simp only [List.map_cons, resolvesOf, List.filterMap_cons] at ih ⊢
    rw [ih]

/-- On a response whose every status is ok and whose results are positionally
aligned with the batch, the response loop resolves each batch job with its
result, in order, re-appends nothing, and does not crash. -/
theorem distribute_all_ok (g : Write → WriteResult) (b : List bulkWriterJob) :
    ∀ (tail : List bulkWriterJob) (i : Nat) (s : CallersBulkWriter),
      b.drop i = tail →
      distribute (b.map fun _ => (0 : StatusCode)) b
          (tail.map fun j => g j.write) i s
        = ⟨s, tail.map fun j => Event.resolve j.id (some (g j.write)) none, false⟩ := by
  intro tail
  induction tail with
  | nil => intro i s _; rfl
  | cons j0 rest ih =>
    intro i s h
    have hb : b[i]? = some j0 := by
      have h0 : (b.drop i)[0]? = some j0 := by rw [h]; simp
      rw [List.getElem?_drop] at h0
      simpa using h0
    have hst : (b.map fun _ => (0 : StatusCode))[i]? = some 0 := by
      rw [List.getElem?_map, hb]; rfl
    have hdrop : b.drop (i + 1) = rest := by
      have h1 : (b.drop i).drop 1 = rest := by rw [h]; rfl
      rw [List.drop_drop] at h1
      simpa [Nat.add_comm] using h1
    simp only [List.map_cons, distribute, hst, hb]
    rw [if_neg (by simp)]
    rw [ih (i + 1) s hdrop]

/-- One `execute` over an all-ok transport on a backlog of non-exhausted
jobs: the first `MAX_BATCH_SIZE` jobs are popped and sent, each is resolved
in order with its result, and the backlog is left at the remainder. -/
theorem execute_all_ok (g : Write → WriteResult) (s : CallersBulkWriter)
    (hatt : ∀ j ∈ s.backlogQueue, j.attempts < MAX_RETRY_ATTEMPTS)
    (hreqs : s.reqs < DEFAULT_STARTING_MAXIMUM_OPS_PER_SECOND)
    (hne : s.backlogQueue ≠ []) :
    execute (okTransport g) s true =
      ⟨{ s with backlogQueue := s.backlogQueue.drop MAX_BATCH_SIZE },
       Event.call ⟨s.database,
           (s.backlogQueue.take MAX_BATCH_SIZE).map fun j => j.write⟩ ::
         ((s.backlogQueue.take MAX_BATCH_SIZE).map fun j =>
            Event.resolve j.id (some (g j.write)) none),
       false⟩ := by
  have hge : ¬ s.reqs ≥ DEFAULT_STARTING_MAXIMUM_OPS_PER_SECOND := not_le.mpr hreqs
  have hfilt : (s.backlogQueue.take MAX_BATCH_SIZE).filter
      (fun jb => jb.attempts < MAX_RETRY_ATTEMPTS) = s.backlogQueue.take MAX_BATCH_SIZE :=
    List.filter_eq_self.mpr fun a ha => by
      simpa using hatt a (List.take_subset _ _ ha)
  have htake : s.backlogQueue.take MAX_BATCH_SIZE ≠ [] := by
    intro hcon
    rw [List.take_eq_nil_iff] at hcon
    simp [MAX_BATCH_SIZE] at hcon
    exact hne hcon
  have hlen : ¬ ((s.backlogQueue.take MAX_BATCH_SIZE).map fun j => j.write).length = 0 := by
    intro hcon
    rw [List.length_map] at hcon
    exact htake (List.length_eq_zero.mp hcon)
  simp only [execute, makeBatch_eq, if_neg hge, hfilt, if_neg hlen, okTransport]
  have hst : (((s.backlogQueue.take MAX_BATCH_SIZE).map fun j => j.write).map
        fun _ => (0 : StatusCode))
      = (s.backlogQueue.take MAX_BATCH_SIZE).map fun _ => (0 : StatusCode) := by
    rw [List.map_map]; rfl
  have hres : (((s.backlogQueue.take MAX_BATCH_SIZE).map fun j => j.write).map g)
      = (s.backlogQueue.take MAX_BATCH_SIZE).map fun j => g j.write := by
    rw [List.map_map]; rfl
  rw [hst, hres, distribute_all_ok g _ _ 0 _ (List.drop_zero _)]

/-- The poll loop on an empty backlog returns at once, whatever the fuel. -/
theorem flushLoop_empty (transport : Transport) (fuel : Nat)
    (s : CallersBulkWriter) (h : s.backlogQueue.length = 0) :
    flushLoop transport fuel s = some (s, []) := by
  cases fuel <;> simp [flushLoop, h]

/-- Replacing an empty backlog by the empty list is the identity. -/
theorem state_set_nil_eq (s : CallersBulkWriter) (h : s.backlogQueue = []) :
    { s with backlogQueue := ([] : List bulkWriterJob) } = s := by
  obtain ⟨db, r, o, bq⟩ := s
  simp only at h
  rw [h]

/-- Over an all-ok transport, the poll loop drains a backlog of `N`
non-exhausted jobs in exactly the ceiling of `N / MAX_BATCH_SIZE` transport
calls of at most `MAX_BATCH_SIZE` writes each, resolving every job in order
with its result. -/
theorem flushLoop_all_ok (g : Write → WriteResult) :
    ∀ (fuel : Nat) (s : CallersBulkWriter),
      (∀ j ∈ s.backlogQueue, j.attempts < MAX_RETRY_ATTEMPTS) →
      s.reqs < DEFAULT_STARTING_MAXIMUM_OPS_PER_SECOND →
      s.backlogQueue.length ≤ fuel →
      ∃ evs, flushLoop (okTransport g) fuel s
          = some ({ s with backlogQueue := [] }, evs) ∧
        (callsOf evs).length
          = (s.backlogQueue.length + (MAX_BATCH_SIZE - 1)) / MAX_BATCH_SIZE ∧
        (∀ req ∈ callsOf evs, req.writes.length ≤ MAX_BATCH_SIZE) ∧
        resolvesOf evs
          = s.backlogQueue.map fun j => (j.id, some (g j.write), (none : Option ErrorMsg)) := by
  intro fuel
  induction fuel with
  | zero =>
    intro s hatt hreqs hfuel
    have hb : s.backlogQueue = [] := List.length_eq_zero.mp (by omega)
    refine ⟨[], ?_, ?_, ?_, ?_⟩
    · rw [flushLoop_empty _ _ _ (by simp [hb]), state_set_nil_eq s hb]
    · simp [callsOf, hb, MAX_BATCH_SIZE]
    · simp [callsOf]
    · simp [resolvesOf, hb]
  | succ fuel ih =>
    intro s hatt hreqs hfuel
    by_cases hemp : s.backlogQueue.length = 0
    · have hb : s.backlogQueue = [] := List.length_eq_zero.mp hemp
      refine ⟨[], ?_, ?_, ?_, ?_⟩
      · rw [flushLoop_empty _ _ _ hemp, state_set_nil_eq s hb]
      · simp [callsOf, hb, MAX_BATCH_SIZE]
      · simp [callsOf]
      · simp [resolvesOf, hb]
    · have hne : s.backlogQueue ≠ [] := by
        intro hc; exact hemp (by simp [hc])
      have hexec := execute_all_ok g s hatt hreqs hne
      have hatt2 : ∀ j ∈ s.backlogQueue.drop MAX_BATCH_SIZE,
          j.attempts < MAX_RETRY_ATTEMPTS :=
        fun j hj => hatt j (List.drop_subset _ _ hj)
      have hfuel2 : (s.backlogQueue.drop MAX_BATCH_SIZE).length ≤ fuel := by
        rw [List.length_drop]
        simp only [MAX_BATCH_SIZE]
        omega
      obtain ⟨evs2, heq2, hcnt2, hsz2, hrsv2⟩ :=
        ih { s with backlogQueue := s.backlogQueue.drop MAX_BATCH_SIZE }
          hatt2 hreqs hfuel2
      refine ⟨(Event.call ⟨s.database,
          (s.backlogQueue.take MAX_BATCH_SIZE).map fun j => j.write⟩ ::
          ((s.backlogQueue.take MAX_BATCH_SIZE).map fun j =>
            Event.resolve j.id (some (g j.write)) none)) ++ evs2, ?_, ?_, ?_, ?_⟩
      · simp only [flushLoop, if_neg hemp, hexec]
        rw [heq2]
        rfl
      · rw [callsOf_append, callsOf_cons_call, callsOf_resolves]
        simp only [List.length_append, List.length_cons, List.length_nil] at hcnt2 ⊢
        rw [hcnt2]
        simp only [List.length_drop, MAX_BATCH_SIZE]
        omega
      · intro req hreq
        rw [callsOf_append, callsOf_cons_call, callsOf_resolves] at hreq
        simp only [List.cons_append, List.nil_append, List.mem_cons] at hreq
        rcases hreq with rfl | hreq
        · simp [List.length_take, MAX_BATCH_SIZE]
        · exact hsz2 req hreq
      · rw [resolvesOf_append, resolvesOf_cons_call, resolvesOf_resolves, hrsv2]
        simp only []
        rw [← List.map_append, List.take_append_drop]

/-- C8: draining a backlog of `N` non-exhausted (in particular fresh) jobs
through `Flush` over an all-ok transport issues exactly the ceiling of
`N / MAX_BATCH_SIZE` transport calls, each carrying at most `MAX_BATCH_SIZE`
writes, resolves every job exactly once, in order, with a result and a nil
error, and ends with an empty backlog and the in-flight counter back at its
entry value. -/
theorem steady_state_batching (g : Write → WriteResult) (fuel : Nat)
    (s : CallersBulkWriter)
    (hatt : ∀ j ∈ s.backlogQueue, j.attempts < MAX_RETRY_ATTEMPTS)
    (hreqs : s.reqs < DEFAULT_STARTING_MAXIMUM_OPS_PER_SECOND)
    (hfuel : s.backlogQueue.length ≤ fuel) :
    ∃ evs, flush (okTransport g) fuel s
        = some ({ s with backlogQueue := [] }, evs) ∧
      (callsOf evs).length
        = (s.backlogQueue.length + (MAX_BATCH_SIZE - 1)) / MAX_BATCH_SIZE ∧
      (∀ req ∈ callsOf evs, req.writes.length ≤ MAX_BATCH_SIZE) ∧
      resolvesOf evs
        = s.backlogQueue.map fun j => (j.id, some (g j.write), (none : Option ErrorMsg)) := by
  have hge : ¬ s.reqs ≥ DEFAULT_STARTING_MAXIMUM_OPS_PER_SECOND := not_le.mpr hreqs
  by_cases hemp : s.backlogQueue.length = 0
  · have hb : s.backlogQueue = [] := List.length_eq_zero.mp hemp
    have hexec : execute (okTransport g) s true = ⟨{ s with backlogQueue := [] }, [], false⟩ := by
      simp [execute, makeBatch_eq, hb, hge]
    refine ⟨[], ?_, ?_, ?_, ?_⟩
    · simp only [flush, hexec]
      rw [flushLoop_empty _ _ _ (by simp)]
      simp
    · simp [callsOf, hb, MAX_BATCH_SIZE]
    · simp [callsOf]
    · simp [resolvesOf, hb]
  · have hne : s.backlogQueue ≠ [] := by
      intro hc; exact hemp (by simp [hc])
    have hexec := execute_all_ok g s hatt hreqs hne
    have hatt2 : ∀ j ∈ s.backlogQueue.drop MAX_BATCH_SIZE,
        j.attempts < MAX_RETRY_ATTEMPTS :=
      fun j hj => hatt j (List.drop_subset _ _ hj)
    have hfuel2 : (s.backlogQueue.drop MAX_BATCH_SIZE).length ≤ fuel := by
      rw [List.length_drop]
      simp only [MAX_BATCH_SIZE]
      omega
    obtain ⟨evs2, heq2, hcnt2, hsz2, hrsv2⟩ :=
      flushLoop_all_ok g fuel
        { s with backlogQueue := s.backlogQueue.drop MAX_BATCH_SIZE }
        hatt2 hreqs hfuel2
    refine ⟨(Event.call ⟨s.database,
        (s.backlogQueue.take MAX_BATCH_SIZE).map fun j => j.write⟩ ::
        ((s.backlogQueue.take MAX_BATCH_SIZE).map fun j =>
          Event.resolve j.id (some (g j.write)) none)) ++ evs2, ?_, ?_, ?_, ?_⟩
    · simp only [flush, hexec]
      rw [heq2]
      rfl
    · rw [callsOf_append, callsOf_cons_call, callsOf_resolves]
      simp only [List.length_append, List.length_cons, List.length_nil] at hcnt2 ⊢
      rw [hcnt2]
      simp only [List.length_drop, MAX_BATCH_SIZE]
      omega
    · intro req hreq
      rw [callsOf_append, callsOf_cons_call, callsOf_resolves] at hreq
      simp only [List.cons_append, List.nil_append, List.mem_cons] at hreq
      rcases hreq with rfl | hreq
      · simp [List.length_take, MAX_BATCH_SIZE]
      · exact hsz2 req hreq
    · rw [resolvesOf_append, resolvesOf_cons_call, resolvesOf_resolves, hrsv2]
      simp only []
      rw [← List.map_append, List.take_append_drop]

/-- Witness for C8 at the scenario of the claim: 25 fresh writes, batch size
20, no failures — two transport calls of sizes 20 and 5, 25 results. -/
theorem steady_state_batching_witness :
    (∀ j ∈ stateTwentyFive.backlogQueue, j.attempts < MAX_RETRY_ATTEMPTS) ∧
    (∃ evs, flush (okTransport fun w => w) 25 stateTwentyFive
        = some ({ stateTwentyFive with backlogQueue := [] }, evs) ∧
      (callsOf evs).length
        = (stateTwentyFive.backlogQueue.length + (MAX_BATCH_SIZE - 1)) / MAX_BATCH_SIZE ∧
      (∀ req ∈ callsOf evs, req.writes.length ≤ MAX_BATCH_SIZE) ∧
      resolvesOf evs
        = stateTwentyFive.backlogQueue.map
            fun j => (j.id, some j.write, (none : Option ErrorMsg))) ∧
    ((flush (okTransport fun w => w) 25 stateTwentyFive).map fun p =>
        (callsOf p.2).map fun r => r.writes.length) = some [20, 5] :=
  ⟨by decide,
   steady_state_batching (fun w => w) 25 stateTwentyFive (by decide) (by decide) (by decide),
   by decide⟩

end BulkWriter
